import Mathlib

/-!
Verification of the interactive bounding-box canvas editor and the batch
auto-label worker of an image-annotation tool.

The canvas widget (`ui/canvas_widget.py`) is modelled as an executable state
machine: `CanvasState` carries the fields of `CanvasWidget`, and each Qt event
handler (`mousePressEvent`, `mouseMoveEvent`, `mouseReleaseEvent`,
`wheelEvent`, `keyPressEvent` for the Delete key, `set_mode`, `load_image`)
becomes a function `CanvasState → ... → CanvasState × Nat`, the `Nat` counting
how many times the handler emits the `boxes_changed` signal.  Coordinates use
exact rational arithmetic in place of Python floats.  `QRectF.contains` and
`QRectF.normalized` are translated from their Qt semantics (a rectangle that
is degenerate in either axis contains no point; normalization swaps inverted
edges).  `Optional[BoundingBox] _selected_box` is modelled as an index into
the box list, matching the identity-based selection of the source.

The batch worker (`modes/auto_label_mode.py`, `_AutoLabelWorker.run`) is
modelled as a function from the directory listing and an oracle for the
external detector to the trace of emitted signals and written label files.
-/

namespace AnnotTool

/-- A 2D point with exact rational coordinates (models `QPointF`). -/
structure Pt where
  x : ℚ
  y : ℚ
deriving DecidableEq, Repr

instance : Add Pt := ⟨fun a b => ⟨a.x + b.x, a.y + b.y⟩⟩
instance : Sub Pt := ⟨fun a b => ⟨a.x - b.x, a.y - b.y⟩⟩

/-- `core/bbox_model.py`: a bounding box in image coordinates. -/
structure BoundingBox where
  class_id : Int
  x1 : ℚ
  y1 : ℚ
  x2 : ℚ
  y2 : ℚ
  confidence : Option ℚ
deriving DecidableEq, Repr

/-- `BoundingBox.width` from `core/bbox_model.py`. -/
def BoundingBox.width (b : BoundingBox) : ℚ := b.x2 - b.x1

/-- `BoundingBox.height` from `core/bbox_model.py`. -/
def BoundingBox.height (b : BoundingBox) : ℚ := b.y2 - b.y1

/-- `CanvasMode` enum from `ui/canvas_widget.py`. -/
inductive CanvasMode
  | NAVIGATE
  | MARK
  | SELECT
deriving DecidableEq, Repr

/-- Resize handle names, the strings used in `ui/canvas_widget.py`. -/
inductive Handle
  | tl
  | tr
  | bl
  | br
  | l
  | r
  | t
  | b
deriving DecidableEq, Repr

/-- The mouse buttons the widget distinguishes. -/
inductive MouseButton
  | left
  | middle
  | other
deriving DecidableEq, Repr

/-- The mutable state of `CanvasWidget` (its `__init__` fields).
`selected` is the index of `_selected_box` in `_boxes` (or `none`), and
`current_rect` stores the `QRectF` as its top-left and bottom-right points. -/
structure CanvasState where
  pixmap : Option Nat
  scale : ℚ
  offset : Pt
  boxes : List BoundingBox
  selected : Option Nat
  mode : CanvasMode
  new_box_class : Int
  dragging : Bool
  drag_start : Pt
  current_rect : Option (Pt × Pt)
  panning : Bool
  pan_start : Pt
  resizing : Bool
  resize_handle : Option Handle
deriving DecidableEq, Repr

/-- The state built by `CanvasWidget.__init__`. -/
def initState : CanvasState :=
  { pixmap := none
    scale := 1
    offset := ⟨0, 0⟩
    boxes := []
    selected := none
    mode := CanvasMode.NAVIGATE
    new_box_class := 0
    dragging := false
    drag_start := ⟨0, 0⟩
    current_rect := none
    panning := false
    pan_start := ⟨0, 0⟩
    resizing := false
    resize_handle := none }

/-- `CanvasWidget._to_image_coords`: widget point to image point. -/
def to_image_coords (s : CanvasState) (p : Pt) : Pt :=
  ⟨(p.x - s.offset.x) / s.scale, (p.y - s.offset.y) / s.scale⟩

/-- The widget-space position of an image point under the paint transform of
`CanvasWidget.paintEvent` (`translate(offset)` then `scale(scale)`). -/
def to_widget_coords (s : CanvasState) (p : Pt) : Pt :=
  ⟨p.x * s.scale + s.offset.x, p.y * s.scale + s.offset.y⟩

/-- `QRectF(x, y, w, h).contains(p)` per Qt semantics: a rectangle that is
degenerate in either axis contains nothing; otherwise edges are inclusive and
a negative width or height is read as a flipped rectangle. -/
def rectContains (x y w h : ℚ) (p : Pt) : Bool :=
  let l := if w < 0 then x + w else x
  let r := if w < 0 then x else x + w
  if l = r then false
  else if p.x < l ∨ r < p.x then false
  else
    let t := if h < 0 then y + h else y
    let b := if h < 0 then y else y + h
    if t = b then false
    else if p.y < t ∨ b < p.y then false
    else true

/-- The containment test `QRectF(box.x1, box.y1, box.width(), box.height())
.contains(pos)` used by `mousePressEvent` in SELECT mode. -/
def boxContains (b : BoundingBox) (p : Pt) : Bool :=
  rectContains b.x1 b.y1 b.width b.height p

/-- `QRectF.normalized()` on a rectangle given by top-left and bottom-right
points: swap the x pair when the width is negative, the y pair when the
height is negative. -/
def qrectNormalized (tl br : Pt) : Pt × Pt :=
  let w := br.x - tl.x
  let h := br.y - tl.y
  let xs := if w < 0 then (br.x, tl.x) else (tl.x, br.x)
  let ys := if h < 0 then (br.y, tl.y) else (tl.y, br.y)
  (⟨xs.1, ys.1⟩, ⟨xs.2, ys.2⟩)

/-- `CanvasWidget._get_handle_at`: the cascade of corner tests then edge
tests, threshold `_handle_size / _scale` with `_handle_size = 8`. -/
def get_handle_at (s : CanvasState) (pos : Pt) (box : BoundingBox) : Option Handle :=
  let threshold := 8 / s.scale
  if |pos.x - box.x1| < threshold ∧ |pos.y - box.y1| < threshold then some Handle.tl
  else if |pos.x - box.x2| < threshold ∧ |pos.y - box.y1| < threshold then some Handle.tr
  else if |pos.x - box.x1| < threshold ∧ |pos.y - box.y2| < threshold then some Handle.bl
  else if |pos.x - box.x2| < threshold ∧ |pos.y - box.y2| < threshold then some Handle.br
  else if |pos.x - box.x1| < threshold ∧ box.y1 ≤ pos.y ∧ pos.y ≤ box.y2 then some Handle.l
  else if |pos.x - box.x2| < threshold ∧ box.y1 ≤ pos.y ∧ pos.y ≤ box.y2 then some Handle.r
  else if |pos.y - box.y1| < threshold ∧ box.x1 ≤ pos.x ∧ pos.x ≤ box.x2 then some Handle.t
  else if |pos.y - box.y2| < threshold ∧ box.x1 ≤ pos.x ∧ pos.x ≤ box.x2 then some Handle.b
  else none

/-- `CanvasWidget._resize_box`: mutate the edges selected by the handle. -/
def resize_box (box : BoundingBox) (handle : Handle) (new_pos : Pt) : BoundingBox :=
  match handle with
  | Handle.tl => { box with x1 := new_pos.x, y1 := new_pos.y }
  | Handle.tr => { box with x2 := new_pos.x, y1 := new_pos.y }
  | Handle.bl => { box with x1 := new_pos.x, y2 := new_pos.y }
  | Handle.br => { box with x2 := new_pos.x, y2 := new_pos.y }
  | Handle.l => { box with x1 := new_pos.x }
  | Handle.r => { box with x2 := new_pos.x }
  | Handle.t => { box with y1 := new_pos.y }
  | Handle.b => { box with y2 := new_pos.y }

/-- The SELECT-mode hit-test loop of `mousePressEvent`: index of the first
box (in store order) whose rectangle contains the point. -/
def hitFirst : List BoundingBox → Pt → Option Nat
  | [], _ => none
  | box :: rest, p =>
    if boxContains box p then some 0
    else (hitFirst rest p).map (fun n => n + 1)

/-- The tail of SELECT-mode `mousePressEvent` after the handle check:
`_selected_box = None`, then the first containing box (if any) becomes
selected and starts a drag. -/
def selectBoxAt (s : CanvasState) (p : Pt) : CanvasState :=
  match hitFirst s.boxes p with
  | some i => { s with selected := some i, dragging := true, drag_start := p }
  | none => { s with selected := none }

/-- `CanvasWidget.mousePressEvent`.  The `Nat` is the number of
`boxes_changed` emissions. -/
def mousePressEvent (s : CanvasState) (btn : MouseButton) (pos : Pt) :
    CanvasState × Nat :=
  match s.mode with
  | CanvasMode.NAVIGATE =>
    if btn = MouseButton.middle ∨ btn = MouseButton.left then
      ({ s with panning := true, pan_start := pos }, 0)
    else (s, 0)
  | CanvasMode.MARK =>
    if btn = MouseButton.left then
      let p := to_image_coords s pos
      ({ s with dragging := true, drag_start := p, current_rect := some (p, p) }, 0)
    else (s, 0)
  | CanvasMode.SELECT =>
    if btn = MouseButton.left then
      let p := to_image_coords s pos
      match s.selected with
      | some i =>
        match s.boxes[i]? with
        | some box =>
          match get_handle_at s p box with
          | some h => ({ s with resizing := true, resize_handle := some h }, 0)
          | none => (selectBoxAt s p, 1)
        | none => (selectBoxAt s p, 1)
      | none => (selectBoxAt s p, 1)
    else if btn = MouseButton.middle then
      ({ s with panning := true, pan_start := pos }, 0)
    else (s, 0)

/-- `CanvasWidget.mouseMoveEvent`. -/
def mouseMoveEvent (s : CanvasState) (pos : Pt) : CanvasState × Nat :=
  match s.mode with
  | CanvasMode.NAVIGATE =>
    if s.panning then
      let delta := pos - s.pan_start
      ({ s with offset := s.offset + delta, pan_start := pos }, 0)
    else (s, 0)
  | CanvasMode.MARK =>
    match s.current_rect with
    | some rect =>
      if s.dragging then
        let p := to_image_coords s pos
        ({ s with current_rect := some (rect.1, p) }, 0)
      else (s, 0)
    | none => (s, 0)
  | CanvasMode.SELECT =>
    if s.resizing ∧ s.selected.isSome ∧ s.resize_handle.isSome then
      let p := to_image_coords s pos
      let s1 :=
        match s.selected, s.resize_handle with
        | some i, some h =>
          match s.boxes[i]? with
          | some bx => { s with boxes := s.boxes.set i (resize_box bx h p) }
          | none => s
        | _, _ => s
      (s1, 1)
    else if s.dragging ∧ s.selected.isSome then
      let p := to_image_coords s pos
      let delta := p - s.drag_start
      let s1 :=
        match s.selected with
        | some i =>
          match s.boxes[i]? with
          | some bx =>
            let moved : BoundingBox :=
              { bx with x1 := bx.x1 + delta.x, y1 := bx.y1 + delta.y,
                        x2 := bx.x2 + delta.x, y2 := bx.y2 + delta.y }
            { s with boxes := s.boxes.set i moved }
          | none => s
        | none => s
      ({ s1 with drag_start := p }, 1)
    else if s.panning then
      let delta := pos - s.pan_start
      ({ s with offset := s.offset + delta, pan_start := pos }, 0)
    else (s, 0)

/-- `CanvasWidget.mouseReleaseEvent`.  Note the MARK branch appends the
normalized `_current_rect` with a literal class id `0` and emits nothing. -/
def mouseReleaseEvent (s : CanvasState) (btn : MouseButton) (_pos : Pt) :
    CanvasState × Nat :=
  if btn = MouseButton.left then
    let s1 :=
      if s.mode = CanvasMode.MARK ∧ s.dragging then
        let s2 := { s with dragging := false }
        match s.current_rect with
        | some rect =>
          let nr := qrectNormalized rect.1 rect.2
          { s2 with
              boxes := s2.boxes ++ [⟨0, nr.1.x, nr.1.y, nr.2.x, nr.2.y, none⟩],
              current_rect := none }
        | none => s2
      else if s.mode = CanvasMode.SELECT then
        { s with dragging := false, resizing := false, resize_handle := none }
      else s
    (if s1.panning then { s1 with panning := false } else s1, 0)
  else if btn = MouseButton.middle then
    (if s.panning then { s with panning := false } else s, 0)
  else (s, 0)

/-- `CanvasWidget.wheelEvent`: zoom with clamping, anchored at the cursor. -/
def wheelEvent (s : CanvasState) (deltaY : ℚ) (pos : Pt) : CanvasState × Nat :=
  if s.mode = CanvasMode.NAVIGATE ∨ s.mode = CanvasMode.SELECT then
    let factor := 1 + deltaY / 1200
    let old_pos := to_image_coords s pos
    let scale2 := max (1 / 10) (min (s.scale * factor) 10)
    let s1 := { s with scale := scale2 }
    let new_pos := to_image_coords s1 pos
    ({ s1 with offset := s1.offset +
        ⟨(new_pos.x - old_pos.x) * scale2, (new_pos.y - old_pos.y) * scale2⟩ }, 0)
  else (s, 0)

/-- Remove the first element equal to `b` (Python `list.remove`, with the
structural equality of a `dataclass`). -/
def eraseFirstBox : List BoundingBox → BoundingBox → List BoundingBox
  | [], _ => []
  | x :: rest, b => if x = b then rest else x :: eraseFirstBox rest b

/-- `CanvasWidget.keyPressEvent` restricted to the Delete key. -/
def keyPressDelete (s : CanvasState) : CanvasState × Nat :=
  match s.selected with
  | some i =>
    let s1 :=
      match s.boxes[i]? with
      | some bx => { s with boxes := eraseFirstBox s.boxes bx }
      | none => s
    ({ s1 with selected := none }, 1)
  | none => (s, 0)

/-- `CanvasWidget.set_mode`: stores the mode (and resets the cursor, which is
not part of the modelled state). -/
def set_mode (s : CanvasState) (m : CanvasMode) : CanvasState × Nat :=
  ({ s with mode := m }, 0)

/-- `CanvasWidget.load_image`: install the pixmap and reset the transform. -/
def load_image (s : CanvasState) (img : Nat) : CanvasState × Nat :=
  ({ s with pixmap := some img, scale := 1, offset := ⟨0, 0⟩ }, 0)

/-- Host write to the public `new_box_class` attribute
(`edit_mode.py` lines 132 and 288). -/
def setNewBoxClass (s : CanvasState) (c : Int) : CanvasState × Nat :=
  ({ s with new_box_class := c }, 0)

/-- The events the widget reacts to. -/
inductive CanvasEvent
  | mousePress (btn : MouseButton) (pos : Pt)
  | mouseMove (pos : Pt)
  | mouseRelease (btn : MouseButton) (pos : Pt)
  | wheel (deltaY : ℚ) (pos : Pt)
  | keyDelete
  | setMode (m : CanvasMode)
  | loadImage (img : Nat)
  | newBoxClass (c : Int)
deriving DecidableEq, Repr

/-- Dispatch one event to its handler; returns the new state and the number
of `boxes_changed` emissions of that handler. -/
def stepE (s : CanvasState) : CanvasEvent → CanvasState × Nat
  | CanvasEvent.mousePress btn pos => mousePressEvent s btn pos
  | CanvasEvent.mouseMove pos => mouseMoveEvent s pos
  | CanvasEvent.mouseRelease btn pos => mouseReleaseEvent s btn pos
  | CanvasEvent.wheel dy pos => wheelEvent s dy pos
  | CanvasEvent.keyDelete => keyPressDelete s
  | CanvasEvent.setMode m => set_mode s m
  | CanvasEvent.loadImage img => load_image s img
  | CanvasEvent.newBoxClass c => setNewBoxClass s c

/-- The state after one event. -/
def step (s : CanvasState) (e : CanvasEvent) : CanvasState := (stepE s e).1

/-- The state reached from the freshly constructed widget by a sequence of
events. -/
def runEvents (evs : List CanvasEvent) : CanvasState :=
  evs.foldl step initState

/-! ## Batch auto-label worker (`modes/auto_label_mode.py`, `_AutoLabelWorker.run`)

Filenames are modelled as character lists so that all operations compute in
the kernel. -/

/-- A filename, as the list of its characters. -/
abbrev FileName := List Char

/-- `name` ends with suffix `p` — the effect of a `glob("*<p>")` pattern on a
flat directory listing. -/
def endsWithName : FileName → FileName → Bool
  | _, [] => true
  | [], _ :: _ => false
  | xs@(_ :: rest), p =>
    if xs.length = p.length then xs = p else endsWithName rest p

/-- Lexicographic filename order by code point, the order `sorted` uses on
path names. -/
def nameLt : FileName → FileName → Bool
  | [], [] => false
  | [], _ :: _ => true
  | _ :: _, [] => false
  | c :: cs, d :: ds =>
    if c.toNat < d.toNat then true
    else if d.toNat < c.toNat then false
    else nameLt cs ds

/-- Insert into a sorted list of filenames. -/
def insertName (x : FileName) : List FileName → List FileName
  | [] => [x]
  | y :: rest => if nameLt x y then x :: y :: rest else y :: insertName x rest

/-- Insertion sort over filenames (models `sorted`). -/
def sortNames (l : List FileName) : List FileName :=
  l.foldr insertName []

/-- `sorted(glob("*.jpg")) + sorted(glob("*.png")) + sorted(glob("*.jpeg"))`
from `_AutoLabelWorker.run`. -/
def collectImages (files : List FileName) : List FileName :=
  sortNames (files.filter (fun f => endsWithName f ".jpg".data))
    ++ sortNames (files.filter (fun f => endsWithName f ".png".data))
    ++ sortNames (files.filter (fun f => endsWithName f ".jpeg".data))

/-- One YOLO label line: class id and the four normalized coordinates. -/
abbrev YoloEntry := Int × ℚ × ℚ × ℚ × ℚ

/-- The notifications the worker can emit. -/
inductive WorkerSig
  | progressSig (n : Int)
  | finishedSig
  | errorSig (msg : String)
deriving DecidableEq, Repr

/-- Oracle for the external collaborators of the worker: whether the model
loads, the text of a load failure, and the per-image outcome (`none` models a
per-image exception, which the worker logs and skips). -/
structure WorkerEnv where
  loadOk : Bool
  loadErr : String
  perImage : FileName → Option (List YoloEntry)

/-- What a worker run produced: the emitted signals in order, whether the
detection model was loaded, and the label files written. -/
structure WorkerTrace where
  signals : List WorkerSig
  modelLoaded : Bool
  written : List (FileName × List YoloEntry)
deriving Repr

/-- The per-image loop of `_AutoLabelWorker.run`, with `enumerate` index `i`
starting at 1; a failed image is skipped without a progress update. -/
def processLoop (env : WorkerEnv) (total : Nat) :
    List FileName → Nat → List WorkerSig × List (FileName × List YoloEntry)
  | [], _ => ([], [])
  | img :: rest, i =>
    let tail := processLoop env total rest (i + 1)
    match env.perImage img with
    | some entries =>
      let pct : Int := 5 + Rat.floor ((i : ℚ) / (total : ℚ) * 95)
      (WorkerSig.progressSig pct :: tail.1, (img, entries) :: tail.2)
    | none => tail

/-- `_AutoLabelWorker.run`: collect images, report an error when there are
none, otherwise emit progress 0, load the model (failure aborts with a single
error), emit progress 5, process each image, then emit progress 100 and the
success signal. -/
def workerRun (env : WorkerEnv) (files : List FileName) : WorkerTrace :=
  let images := collectImages files
  let total := images.length
  if total = 0 then
    { signals := [WorkerSig.errorSig "No images found in the selected folder."]
      modelLoaded := false
      written := [] }
  else if env.loadOk then
    let r := processLoop env total images 1
    { signals := [WorkerSig.progressSig 0, WorkerSig.progressSig 5] ++ r.1
        ++ [WorkerSig.progressSig 100, WorkerSig.finishedSig]
      modelLoaded := true
      written := r.2 }
  else
    { signals := [WorkerSig.progressSig 0,
        WorkerSig.errorSig ("Auto-labeling failed: " ++ env.loadErr)]
      modelLoaded := false
      written := [] }

/-! ## Concrete states used by witnesses and counterexamples -/

/-- A fresh widget switched to MARK mode. -/
def markState : CanvasState := { initState with mode := CanvasMode.MARK }

/-- A fresh widget in MARK mode whose host set `new_box_class` to 3. -/
def markClass3State : CanvasState :=
  { initState with mode := CanvasMode.MARK, new_box_class := 3 }

/-- SELECT mode with two overlapping boxes, nothing selected. -/
def overlapState : CanvasState :=
  { initState with
      mode := CanvasMode.SELECT
      boxes := [⟨1, 0, 0, 20, 20, none⟩, ⟨2, 5, 5, 30, 30, none⟩] }

/-- MARK mode with a draw in progress whose rectangle is inverted. -/
def invertedDrawState : CanvasState :=
  { initState with
      mode := CanvasMode.MARK
      dragging := true
      current_rect := some (⟨50, 40⟩, ⟨10, 10⟩) }

/-- SELECT mode in the middle of a handle resize of box 0. -/
def resizeState : CanvasState :=
  { initState with
      mode := CanvasMode.SELECT
      resizing := true
      selected := some 0
      resize_handle := some Handle.br
      boxes := [⟨1, 0, 0, 10, 10, none⟩] }

/-- SELECT mode in the middle of a translate drag of box 0. -/
def dragSelState : CanvasState :=
  { initState with
      mode := CanvasMode.SELECT
      dragging := true
      selected := some 0
      boxes := [⟨1, 0, 0, 10, 10, none⟩] }

/-- A state with box 0 selected, ready for the Delete key. -/
def delSelState : CanvasState :=
  { initState with
      mode := CanvasMode.SELECT
      selected := some 0
      boxes := [⟨1, 0, 0, 10, 10, none⟩] }

/-- Whether the SELECT-mode `mousePressEvent` takes its early-return resize
branch at image point `p`: a box is selected and `_get_handle_at` hits one of
its handles. -/
def handleBranchTaken (s : CanvasState) (p : Pt) : Bool :=
  match s.selected with
  | some i =>
    match s.boxes[i]? with
    | some bx => (get_handle_at s p bx).isSome
    | none => false
  | none => false

/-- The zoom-clamp invariant: the scale lies in [0.1, 10.0]. -/
def scaleInv (s : CanvasState) : Prop := 1 / 10 ≤ s.scale ∧ s.scale ≤ 10

/-! ## Helper lemmas -/

/-- Componentwise description of point addition. -/
theorem Pt.add_def (a b : Pt) : a + b = ⟨a.x + b.x, a.y + b.y⟩ := rfl

/-- Componentwise description of point subtraction. -/
theorem Pt.sub_def (a b : Pt) : a - b = ⟨a.x - b.x, a.y - b.y⟩ := rfl

/-- `mousePressEvent` never changes the scale. -/
theorem mousePressEvent_scale (s : CanvasState) (b : MouseButton) (p : Pt) :
    (mousePressEvent s b p).1.scale = s.scale := by
  obtain ⟨pix, sc, off, boxes, sel, mode, nbc, drg, ds, cr, pan, ps, rz, rh⟩ := s
  unfold mousePressEvent selectBoxAt
  cases mode <;> dsimp only <;> (repeat' split) <;> rfl

/-- `mouseMoveEvent` never changes the scale. -/
theorem mouseMoveEvent_scale (s : CanvasState) (p : Pt) :
    (mouseMoveEvent s p).1.scale = s.scale := by
  obtain ⟨pix, sc, off, boxes, sel, mode, nbc, drg, ds, cr, pan, ps, rz, rh⟩ := s
  unfold mouseMoveEvent
  cases mode <;> dsimp only <;> (repeat' split) <;> rfl

/-- `mouseReleaseEvent` never changes the scale. -/
theorem mouseReleaseEvent_scale (s : CanvasState) (b : MouseButton) (p : Pt) :
    (mouseReleaseEvent s b p).1.scale = s.scale := by
  obtain ⟨pix, sc, off, boxes, sel, mode, nbc, drg, ds, cr, pan, ps, rz, rh⟩ := s
  unfold mouseReleaseEvent
  dsimp only
  (repeat' split) <;> rfl

/-- The Delete-key handler never changes the scale. -/
theorem keyPressDelete_scale (s : CanvasState) :
    (keyPressDelete s).1.scale = s.scale := by
  obtain ⟨pix, sc, off, boxes, sel, mode, nbc, drg, ds, cr, pan, ps, rz, rh⟩ := s
  unfold keyPressDelete
  dsimp only
  (repeat' split) <;> rfl

/-- `wheelEvent` keeps the scale inside [0.1, 10]. -/
theorem wheelEvent_scaleInv (s : CanvasState) (dy : ℚ) (p : Pt) (h : scaleInv s) :
    scaleInv (wheelEvent s dy p).1 := by
  unfold wheelEvent
  unfold scaleInv at h ⊢
  split
  · exact ⟨le_max_left _ _, max_le (by norm_num) (min_le_right _ _)⟩
  · exact h

/-- Every event handler preserves the scale-clamp invariant. -/
theorem step_scaleInv (s : CanvasState) (e : CanvasEvent) (h : scaleInv s) :
    scaleInv (step s e) := by
  cases e with
  | mousePress b p =>
    unfold scaleInv at h ⊢
    rw [show step s (CanvasEvent.mousePress b p) = (mousePressEvent s b p).1 from rfl,
      mousePressEvent_scale]
    exact h
  | mouseMove p =>
    unfold scaleInv at h ⊢
    rw [show step s (CanvasEvent.mouseMove p) = (mouseMoveEvent s p).1 from rfl,
      mouseMoveEvent_scale]
    exact h
  | mouseRelease b p =>
    unfold scaleInv at h ⊢
    rw [show step s (CanvasEvent.mouseRelease b p) = (mouseReleaseEvent s b p).1 from rfl,
      mouseReleaseEvent_scale]
    exact h
  | wheel dy p => exact wheelEvent_scaleInv s dy p h
  | keyDelete =>
    unfold scaleInv at h ⊢
    rw [show step s CanvasEvent.keyDelete = (keyPressDelete s).1 from rfl,
      keyPressDelete_scale]
    exact h
  | setMode m => exact h
  | loadImage img =>
    exact ⟨show (1 : ℚ) / 10 ≤ 1 by norm_num, show (1 : ℚ) ≤ 10 by norm_num⟩
  | newBoxClass c => exact h

/-- Every state reachable from the fresh widget satisfies the scale clamp. -/
theorem runEvents_scaleInv (evs : List CanvasEvent) : scaleInv (runEvents evs) := by
  unfold runEvents
  have hgen : ∀ s : CanvasState, scaleInv s → scaleInv (evs.foldl step s) := by
    induction evs with
    | nil => intro s hs; exact hs
    | cons e rest ih => intro s hs; exact ih (step s e) (step_scaleInv s e hs)
  exact hgen initState ⟨by norm_num [initState], by norm_num [initState]⟩

/-- The selection produced by the SELECT-mode hit-test tail is exactly
`hitFirst`. -/
theorem selectBoxAt_selected (s : CanvasState) (p : Pt) :
    (selectBoxAt s p).selected = hitFirst s.boxes p := by
  unfold selectBoxAt
  cases h : hitFirst s.boxes p <;> simp [h]

/-- When `hitFirst` returns index `i`, box `i` contains the point and no
earlier box does. -/
theorem hitFirst_some (boxes : List BoundingBox) (p : Pt) (i : Nat)
    (h : hitFirst boxes p = some i) :
    (∃ bi, boxes[i]? = some bi ∧ boxContains bi p = true)
      ∧ ∀ j, j < i → ∀ bj, boxes[j]? = some bj → boxContains bj p = false := by
  induction boxes generalizing i with
  | nil => simp [hitFirst] at h
  | cons bx rest ih =>
    rw [hitFirst] at h
    by_cases hb : boxContains bx p = true
    · rw [if_pos hb] at h
      obtain rfl : 0 = i := by injection h
      exact ⟨⟨bx, by simp, hb⟩, fun j hj => absurd hj (Nat.not_lt_zero j)⟩
    · rw [if_neg hb] at h
      obtain ⟨i2, hi2, rfl⟩ := Option.map_eq_some'.mp h
      obtain ⟨⟨bi, hbi, hcont⟩, hfirst⟩ := ih i2 hi2
      refine ⟨⟨bi, by simpa using hbi, hcont⟩, ?_⟩
      intro j hj bj hbj
      cases j with
      | zero =>
        simp only [List.getElem?_cons_zero, Option.some.injEq] at hbj
        subst hbj
        exact eq_false_of_ne_true hb
      | succ k =>
        exact hfirst k (by omega) bj (by simpa using hbj)

/-- When `hitFirst` returns nothing, no box contains the point. -/
theorem hitFirst_none (boxes : List BoundingBox) (p : Pt)
    (h : hitFirst boxes p = none) : ∀ b ∈ boxes, boxContains b p = false := by
  induction boxes with
  | nil => intro b hb; cases hb
  | cons bx rest ih =>
    rw [hitFirst] at h
    by_cases hb : boxContains bx p = true
    · rw [if_pos hb] at h; cases h
    · rw [if_neg hb] at h
      intro b hbmem
      rcases List.mem_cons.mp hbmem with rfl | hmem
      · exact eq_false_of_ne_true hb
      · exact ih (by simpa using h) b hmem

/-- A SELECT-mode primary press that misses every handle sets the selection
to the `hitFirst` result. -/
theorem select_press_selected (s : CanvasState) (w : Pt)
    (hm : s.mode = CanvasMode.SELECT)
    (hh : handleBranchTaken s (to_image_coords s w) = false) :
    (step s (CanvasEvent.mousePress MouseButton.left w)).selected
      = hitFirst s.boxes (to_image_coords s w) := by
  have h1 : step s (CanvasEvent.mousePress MouseButton.left w)
      = (mousePressEvent s MouseButton.left w).1 := rfl
  rw [h1]
  unfold mousePressEvent
  unfold handleBranchTaken at hh
  rw [hm]
  cases hsel : s.selected with
  | none =>
    simpa using selectBoxAt_selected s (to_image_coords s w)
  | some i =>
    rw [hsel] at hh
    dsimp only at hh ⊢
    cases hbx : s.boxes[i]? with
    | none =>
      simpa using selectBoxAt_selected s (to_image_coords s w)
    | some bx =>
      rw [hbx] at hh
      dsimp only at hh ⊢
      cases hga : get_handle_at s (to_image_coords s w) bx with
      | none =>
        simpa using selectBoxAt_selected s (to_image_coords s w)
      | some hdl =>
        rw [hga] at hh
        simp at hh

/-- `QRectF.normalized` sorts each coordinate pair into min/max order. -/
theorem qrectNormalized_eq (p1 p2 : Pt) :
    qrectNormalized p1 p2
      = (⟨min p1.x p2.x, min p1.y p2.y⟩, ⟨max p1.x p2.x, max p1.y p2.y⟩) := by
  unfold qrectNormalized
  dsimp only
  rcases lt_or_le p2.x p1.x with hx | hx <;> rcases lt_or_le p2.y p1.y with hy | hy
  · rw [if_pos (sub_neg.mpr hx), if_pos (sub_neg.mpr hy)]
    simp [Prod.mk.injEq, Pt.mk.injEq,
      min_eq_right hx.le, max_eq_left hx.le, min_eq_right hy.le, max_eq_left hy.le]
  · rw [if_pos (sub_neg.mpr hx), if_neg (by rw [sub_neg]; exact not_lt.mpr hy)]
    simp [Prod.mk.injEq, Pt.mk.injEq,
      min_eq_right hx.le, max_eq_left hx.le, min_eq_left hy, max_eq_right hy]
  · rw [if_neg (by rw [sub_neg]; exact not_lt.mpr hx), if_pos (sub_neg.mpr hy)]
    simp [Prod.mk.injEq, Pt.mk.injEq,
      min_eq_left hx, max_eq_right hx, min_eq_right hy.le, max_eq_left hy.le]
  · rw [if_neg (by rw [sub_neg]; exact not_lt.mpr hx),
      if_neg (by rw [sub_neg]; exact not_lt.mpr hy)]
    simp [Prod.mk.injEq, Pt.mk.injEq,
      min_eq_left hx, max_eq_right hx, min_eq_left hy, max_eq_right hy]

/-- Full effect of a Mark-mode pointer-up that ends a draw: the normalized
rectangle is appended with class id 0, the rectangle and drag flag are
cleared, and no `boxes_changed` is emitted. -/
theorem mark_release_spec (s : CanvasState) (w p1 p2 : Pt)
    (hm : s.mode = CanvasMode.MARK) (hd : s.dragging = true)
    (hr : s.current_rect = some (p1, p2)) :
    (stepE s (CanvasEvent.mouseRelease MouseButton.left w)).1.boxes
        = s.boxes
          ++ [⟨0, min p1.x p2.x, min p1.y p2.y, max p1.x p2.x, max p1.y p2.y, none⟩]
      ∧ (stepE s (CanvasEvent.mouseRelease MouseButton.left w)).1.current_rect = none
      ∧ (stepE s (CanvasEvent.mouseRelease MouseButton.left w)).1.dragging = false
      ∧ (stepE s (CanvasEvent.mouseRelease MouseButton.left w)).2 = 0 := by
  have h1 : stepE s (CanvasEvent.mouseRelease MouseButton.left w)
      = mouseReleaseEvent s MouseButton.left w := rfl
  rw [h1]
  unfold mouseReleaseEvent
  rw [hr]
  rw [if_pos (rfl : MouseButton.left = MouseButton.left)]
  dsimp only
  rw [if_pos (show s.mode = CanvasMode.MARK ∧ s.dragging = true from ⟨hm, hd⟩)]
  dsimp only
  rw [qrectNormalized_eq]
  dsimp only
  split <;> exact ⟨rfl, rfl, rfl, rfl⟩

/-! ## Claims -/

/-- Claim C1 (code behavior at the failing input): a completed Mark-mode draw
gesture from widget point (10,10) to (50,40) — and the reverse drag — commits
the normalized rectangle as the spec says, but with the literal class id 0
written in `mouseReleaseEvent`, not the current class `new_box_class` (= 3
here).  `new_box_class` is written by the host yet never read by the commit. -/
theorem C1_commit_ignores_new_box_class :
    ((step (step (step markClass3State (CanvasEvent.mousePress MouseButton.left ⟨10, 10⟩))
          (CanvasEvent.mouseMove ⟨50, 40⟩))
        (CanvasEvent.mouseRelease MouseButton.left ⟨50, 40⟩)).boxes
        = [⟨0, 10, 10, 50, 40, none⟩]
      ∧ (step (step (step markClass3State (CanvasEvent.mousePress MouseButton.left ⟨10, 10⟩))
          (CanvasEvent.mouseMove ⟨50, 40⟩))
        (CanvasEvent.mouseRelease MouseButton.left ⟨50, 40⟩)).new_box_class = 3)
      ∧ (step (step (step markClass3State (CanvasEvent.mousePress MouseButton.left ⟨50, 40⟩))
          (CanvasEvent.mouseMove ⟨10, 10⟩))
        (CanvasEvent.mouseRelease MouseButton.left ⟨10, 10⟩)).boxes
        = [⟨0, 10, 10, 50, 40, none⟩] := by
  norm_num [step, stepE, mousePressEvent, mouseMoveEvent, mouseReleaseEvent,
    to_image_coords, qrectNormalized, markClass3State, initState]

/-- Claim C2: the image-space point under the zoom pivot is exactly unchanged
by a wheel event, for every requested factor, including when the rescaled
value is clamped. -/
theorem C2_zoom_anchor (s : CanvasState) (dy : ℚ) (p : Pt) (hs : 0 < s.scale) :
    to_image_coords (step s (CanvasEvent.wheel dy p)) p = to_image_coords s p := by
  have h1 : step s (CanvasEvent.wheel dy p) = (wheelEvent s dy p).1 := rfl
  rw [h1]
  unfold wheelEvent
  split
  · have hpos : (0 : ℚ) < max (1 / 10) (min (s.scale * (1 + dy / 1200)) 10) :=
      lt_of_lt_of_le (by norm_num) (le_max_left _ _)
    simp only [to_image_coords, Pt.add_def, Pt.sub_def, Pt.mk.injEq]
    constructor <;> (field_simp; ring)
  · rfl

theorem C2_witness :
    to_image_coords (step initState (CanvasEvent.wheel (-100000) ⟨7, 11⟩)) ⟨7, 11⟩
      = to_image_coords initState ⟨7, 11⟩ :=
  C2_zoom_anchor initState (-100000) ⟨7, 11⟩ (by norm_num [initState])

/-- Claim C3: a wheel event taken from any state whose scale is in [0.1, 10]
leaves the scale in [0.1, 10], and since the widget starts at scale 1 and no
handler breaks the clamp, the bound holds in every reachable state. -/
theorem C3_scale_clamped :
    (∀ (s : CanvasState) (dy : ℚ) (p : Pt), scaleInv s →
        scaleInv (step s (CanvasEvent.wheel dy p)))
      ∧ ∀ evs : List CanvasEvent, scaleInv (runEvents evs) :=
  ⟨fun s dy p h => step_scaleInv s (CanvasEvent.wheel dy p) h, runEvents_scaleInv⟩

theorem C3_witness : scaleInv (step initState (CanvasEvent.wheel 1000000 ⟨0, 0⟩)) :=
  C3_scale_clamped.1 initState 1000000 ⟨0, 0⟩
    ⟨by norm_num [initState], by norm_num [initState]⟩

/-- Claim C4: with a nonzero scale the two coordinate conversions are
mutually inverse, exactly, in both directions. -/
theorem C4_roundtrip_coords (s : CanvasState) (p q : Pt) (hs : s.scale ≠ 0) :
    to_widget_coords s (to_image_coords s p) = p
      ∧ to_image_coords s (to_widget_coords s q) = q := by
  obtain ⟨px, py⟩ := p
  obtain ⟨qx, qy⟩ := q
  unfold to_widget_coords to_image_coords
  simp only [Pt.mk.injEq]
  refine ⟨⟨?_, ?_⟩, ?_, ?_⟩ <;> field_simp

theorem C4_witness :
    to_widget_coords initState (to_image_coords initState ⟨3, 4⟩) = ⟨3, 4⟩
      ∧ to_image_coords initState (to_widget_coords initState ⟨5, 6⟩) = ⟨5, 6⟩ :=
  C4_roundtrip_coords initState ⟨3, 4⟩ ⟨5, 6⟩ (by norm_num [initState])

/-- Claim C5: a SELECT-mode primary press that does not hit a handle of the
selected box selects exactly the first box in store order containing the
image point (`hitFirst`), or nothing; in particular, of two overlapping boxes
the earlier-inserted one wins. -/
theorem C5_select_first_match (s : CanvasState) (w : Pt)
    (hm : s.mode = CanvasMode.SELECT)
    (hh : handleBranchTaken s (to_image_coords s w) = false) :
    (step s (CanvasEvent.mousePress MouseButton.left w)).selected
        = hitFirst s.boxes (to_image_coords s w)
      ∧ (∀ i, hitFirst s.boxes (to_image_coords s w) = some i →
          (∃ bi, s.boxes[i]? = some bi ∧ boxContains bi (to_image_coords s w) = true)
            ∧ ∀ j, j < i → ∀ bj, s.boxes[j]? = some bj →
                boxContains bj (to_image_coords s w) = false)
      ∧ (hitFirst s.boxes (to_image_coords s w) = none →
          ∀ b ∈ s.boxes, boxContains b (to_image_coords s w) = false) :=
  ⟨select_press_selected s w hm hh,
   fun i hi => hitFirst_some s.boxes (to_image_coords s w) i hi,
   fun hn => hitFirst_none s.boxes (to_image_coords s w) hn⟩

theorem C5_witness :
    (step overlapState (CanvasEvent.mousePress MouseButton.left ⟨10, 10⟩)).selected
      = some 0 := by
  have h := (C5_select_first_match overlapState ⟨10, 10⟩ rfl rfl).1
  rw [h]
  norm_num [hitFirst, boxContains, rectContains, BoundingBox.width, BoundingBox.height,
    overlapState, initState, to_image_coords]

/-- Claim C6 (amended): on a Mark-mode pointer-up that ends a draw, the
dragged rectangle is normalized and a box is always appended to the store,
even when the rectangle is degenerate; there is no degeneracy check. -/
theorem C6_mark_release_always_commits (s : CanvasState) (w p1 p2 : Pt)
    (hm : s.mode = CanvasMode.MARK) (hd : s.dragging = true)
    (hr : s.current_rect = some (p1, p2)) :
    (step s (CanvasEvent.mouseRelease MouseButton.left w)).boxes
        = s.boxes
          ++ [⟨0, min p1.x p2.x, min p1.y p2.y, max p1.x p2.x, max p1.y p2.y, none⟩]
      ∧ (step s (CanvasEvent.mouseRelease MouseButton.left w)).current_rect = none
      ∧ (step s (CanvasEvent.mouseRelease MouseButton.left w)).dragging = false := by
  obtain ⟨hb, hc, hdr, _⟩ := mark_release_spec s w p1 p2 hm hd hr
  exact ⟨hb, hc, hdr⟩

theorem C6_witness :
    (step invertedDrawState (CanvasEvent.mouseRelease MouseButton.left ⟨0, 0⟩)).boxes
      = [⟨0, 10, 10, 50, 40, none⟩] := by
  have h := (C6_mark_release_always_commits invertedDrawState ⟨0, 0⟩ ⟨50, 40⟩ ⟨10, 10⟩
    rfl rfl rfl).1
  rw [h]
  norm_num [invertedDrawState, initState, min_def, max_def]

/-- Claim C6 counterexample: pressing and releasing at the same point in Mark
mode appends a degenerate (zero-width, zero-height) box to the store; the
claimed discard of degenerate rectangles does not happen. -/
theorem C6_counterexample :
    (step (step markState (CanvasEvent.mousePress MouseButton.left ⟨5, 5⟩))
        (CanvasEvent.mouseRelease MouseButton.left ⟨5, 5⟩)).boxes
      = [⟨0, 5, 5, 5, 5, none⟩] := by
  norm_num [step, stepE, mousePressEvent, mouseReleaseEvent, to_image_coords,
    qrectNormalized, markState, initState]

/-- Claim C7 (amended): `set_mode` only changes the mode (and cursor); the
in-progress drag state and rectangle survive the switch, and a later
pointer-up with the mode back at MARK still commits the rectangle to the
store. -/
theorem C7_set_mode_keeps_draw (s : CanvasState) (m : CanvasMode) :
    (step s (CanvasEvent.setMode m)).mode = m
      ∧ (step s (CanvasEvent.setMode m)).current_rect = s.current_rect
      ∧ (step s (CanvasEvent.setMode m)).dragging = s.dragging
      ∧ (step s (CanvasEvent.setMode m)).boxes = s.boxes
      ∧ ∀ (w p1 p2 : Pt), s.dragging = true → s.current_rect = some (p1, p2) →
          (step (step s (CanvasEvent.setMode CanvasMode.MARK))
              (CanvasEvent.mouseRelease MouseButton.left w)).boxes.length
            = s.boxes.length + 1 := by
  refine ⟨rfl, rfl, rfl, rfl, fun w p1 p2 hd hr => ?_⟩
  have h := (mark_release_spec (step s (CanvasEvent.setMode CanvasMode.MARK)) w p1 p2
    rfl hd hr).1
  have h2 : (step (step s (CanvasEvent.setMode CanvasMode.MARK))
      (CanvasEvent.mouseRelease MouseButton.left w)).boxes
      = (step s (CanvasEvent.setMode CanvasMode.MARK)).boxes
        ++ [⟨0, min p1.x p2.x, min p1.y p2.y, max p1.x p2.x, max p1.y p2.y, none⟩] := h
  rw [h2, List.length_append]
  rfl

theorem C7_witness :
    (step (step invertedDrawState (CanvasEvent.setMode CanvasMode.MARK))
        (CanvasEvent.mouseRelease MouseButton.left ⟨0, 0⟩)).boxes.length
      = invertedDrawState.boxes.length + 1 :=
  (C7_set_mode_keeps_draw invertedDrawState CanvasMode.MARK).2.2.2.2 ⟨0, 0⟩ ⟨50, 40⟩
    ⟨10, 10⟩ rfl rfl

/-- Claim C7 counterexample: with a Mark draw in progress, switching to
SELECT leaves the in-progress rectangle and drag flag in place, and after
switching back to MARK the following pointer-up commits that rectangle, so
the gesture is not cancelled by the mode switch. -/
theorem C7_counterexample :
    (step (step markState (CanvasEvent.mousePress MouseButton.left ⟨10, 10⟩))
        (CanvasEvent.setMode CanvasMode.SELECT)).current_rect
        = some (⟨10, 10⟩, ⟨10, 10⟩)
      ∧ (step (step markState (CanvasEvent.mousePress MouseButton.left ⟨10, 10⟩))
          (CanvasEvent.setMode CanvasMode.SELECT)).dragging = true
      ∧ (step (step (step (step (step markState
              (CanvasEvent.mousePress MouseButton.left ⟨10, 10⟩))
            (CanvasEvent.mouseMove ⟨50, 40⟩))
          (CanvasEvent.setMode CanvasMode.SELECT))
          (CanvasEvent.setMode CanvasMode.MARK))
          (CanvasEvent.mouseRelease MouseButton.left ⟨50, 40⟩)).boxes
        = [⟨0, 10, 10, 50, 40, none⟩] := by
  norm_num [step, stepE, mousePressEvent, mouseMoveEvent, mouseReleaseEvent, set_mode,
    to_image_coords, qrectNormalized, markState, initState, Pt.add_def, Pt.sub_def]

/-- Claim C8 (amended): a Select-mode resize move, a Select-mode translate
move, and deleting the selected box each emit `boxes_changed` at least once
before the handler returns; committing a new box on Mark-mode pointer-up
mutates the store but emits no `boxes_changed`. -/
theorem C8_notifications :
    (∀ (s : CanvasState) (pos : Pt) (i : Nat) (hd : Handle),
        s.mode = CanvasMode.SELECT → s.resizing = true → s.selected = some i →
        s.resize_handle = some hd → 1 ≤ (stepE s (CanvasEvent.mouseMove pos)).2)
      ∧ (∀ (s : CanvasState) (pos : Pt) (i : Nat),
          s.mode = CanvasMode.SELECT → s.resizing = false → s.dragging = true →
          s.selected = some i → 1 ≤ (stepE s (CanvasEvent.mouseMove pos)).2)
      ∧ (∀ (s : CanvasState) (i : Nat), s.selected = some i →
          1 ≤ (stepE s CanvasEvent.keyDelete).2)
      ∧ ∀ (s : CanvasState) (w p1 p2 : Pt),
          s.mode = CanvasMode.MARK → s.dragging = true → s.current_rect = some (p1, p2) →
          (stepE s (CanvasEvent.mouseRelease MouseButton.left w)).2 = 0
            ∧ (stepE s (CanvasEvent.mouseRelease MouseButton.left w)).1.boxes.length
              = s.boxes.length + 1 := by
  refine ⟨?_, ?_, ?_, ?_⟩
  · intro s pos i hd hm hrz hsel hrh
    have h1 : stepE s (CanvasEvent.mouseMove pos) = mouseMoveEvent s pos := rfl
    rw [h1]
    unfold mouseMoveEvent
    rw [hm]
    have hcond : s.resizing = true ∧ s.selected.isSome = true
        ∧ s.resize_handle.isSome = true := by
      rw [hrz, hsel, hrh]; simp
    rw [if_pos hcond]
  · intro s pos i hm hrz hdg hsel
    have h1 : stepE s (CanvasEvent.mouseMove pos) = mouseMoveEvent s pos := rfl
    rw [h1]
    unfold mouseMoveEvent
    rw [hm]
    have hncond : ¬(s.resizing = true ∧ s.selected.isSome = true
        ∧ s.resize_handle.isSome = true) := by
      rw [hrz]; simp
    have hcond2 : s.dragging = true ∧ s.selected.isSome = true := by
      rw [hdg, hsel]; simp
    rw [if_neg hncond, if_pos hcond2]
  · intro s i hsel
    have h1 : stepE s CanvasEvent.keyDelete = keyPressDelete s := rfl
    rw [h1]
    unfold keyPressDelete
    rw [hsel]
  · intro s w p1 p2 hm hdg hr
    obtain ⟨hb, _, _, he⟩ := mark_release_spec s w p1 p2 hm hdg hr
    exact ⟨he, by rw [hb, List.length_append]; rfl⟩

theorem C8_witness :
    1 ≤ (stepE resizeState (CanvasEvent.mouseMove ⟨3, 3⟩)).2
      ∧ 1 ≤ (stepE dragSelState (CanvasEvent.mouseMove ⟨3, 3⟩)).2
      ∧ 1 ≤ (stepE delSelState CanvasEvent.keyDelete).2
      ∧ (stepE invertedDrawState (CanvasEvent.mouseRelease MouseButton.left ⟨0, 0⟩)).2
        = 0 :=
  ⟨C8_notifications.1 resizeState ⟨3, 3⟩ 0 Handle.br rfl rfl rfl rfl,
   C8_notifications.2.1 dragSelState ⟨3, 3⟩ 0 rfl rfl rfl rfl,
   C8_notifications.2.2.1 delSelState 0 rfl,
   (C8_notifications.2.2.2 invertedDrawState ⟨0, 0⟩ ⟨50, 40⟩ ⟨10, 10⟩ rfl rfl rfl).1⟩

/-- Claim C8 counterexample: the Mark-mode pointer-up that commits a new box
to the store emits `boxes_changed` zero times, so not every mutation of the
store notifies observers before the handler returns. -/
theorem C8_counterexample :
    (stepE (step markState (CanvasEvent.mousePress MouseButton.left ⟨10, 10⟩))
        (CanvasEvent.mouseRelease MouseButton.left ⟨50, 40⟩)).2 = 0
      ∧ (stepE (step markState (CanvasEvent.mousePress MouseButton.left ⟨10, 10⟩))
          (CanvasEvent.mouseRelease MouseButton.left ⟨50, 40⟩)).1.boxes.length
        = (step markState (CanvasEvent.mousePress MouseButton.left ⟨10, 10⟩)).boxes.length
          + 1 := by
  norm_num [step, stepE, mousePressEvent, mouseReleaseEvent, to_image_coords,
    qrectNormalized, markState, initState]

/-- Claim C9: started on a directory listing with no jpg, png or jpeg file,
the worker emits exactly one error signal and stops: the model is not loaded,
nothing is written, and no progress or success signal is emitted — for every
detector oracle. -/
theorem C9_empty_dir_error (env : WorkerEnv) (files : List FileName)
    (h : ∀ f ∈ files, endsWithName f ".jpg".data = false
        ∧ endsWithName f ".png".data = false ∧ endsWithName f ".jpeg".data = false) :
    workerRun env files
      = { signals := [WorkerSig.errorSig "No images found in the selected folder."]
          modelLoaded := false
          written := [] } := by
  have h1 : files.filter (fun f => endsWithName f ".jpg".data) = [] := by
    rw [List.filter_eq_nil_iff]
    intro a ha
    simp [(h a ha).1]
  have h2 : files.filter (fun f => endsWithName f ".png".data) = [] := by
    rw [List.filter_eq_nil_iff]
    intro a ha
    simp [(h a ha).2.1]
  have h3 : files.filter (fun f => endsWithName f ".jpeg".data) = [] := by
    rw [List.filter_eq_nil_iff]
    intro a ha
    simp [(h a ha).2.2]
  unfold workerRun collectImages
  rw [h1, h2, h3]
  rfl

theorem C9_witness :
    workerRun ⟨true, "", fun _ => none⟩ ["notes.txt".data, "readme.md".data]
      = { signals := [WorkerSig.errorSig "No images found in the selected folder."]
          modelLoaded := false
          written := [] } :=
  C9_empty_dir_error ⟨true, "", fun _ => none⟩ ["notes.txt".data, "readme.md".data]
    (by decide)

/-- Claim C10: `load_image` resets the transform to scale 1 and offset (0,0),
installs the pixmap, and leaves every other field of the editor state — the
box store, the selection, the mode, and all in-progress drag/draw/resize and
pan state — unchanged, emitting no notification. -/
theorem C10_load_image_frame (s : CanvasState) (img : Nat) :
    (stepE s (CanvasEvent.loadImage img)).1.scale = 1
      ∧ (stepE s (CanvasEvent.loadImage img)).1.offset = ⟨0, 0⟩
      ∧ (stepE s (CanvasEvent.loadImage img)).1.pixmap = some img
      ∧ (stepE s (CanvasEvent.loadImage img)).1.boxes = s.boxes
      ∧ (stepE s (CanvasEvent.loadImage img)).1.selected = s.selected
      ∧ (stepE s (CanvasEvent.loadImage img)).1.mode = s.mode
      ∧ (stepE s (CanvasEvent.loadImage img)).1.new_box_class = s.new_box_class
      ∧ (stepE s (CanvasEvent.loadImage img)).1.dragging = s.dragging
      ∧ (stepE s (CanvasEvent.loadImage img)).1.drag_start = s.drag_start
      ∧ (stepE s (CanvasEvent.loadImage img)).1.current_rect = s.current_rect
      ∧ (stepE s (CanvasEvent.loadImage img)).1.panning = s.panning
      ∧ (stepE s (CanvasEvent.loadImage img)).1.pan_start = s.pan_start
      ∧ (stepE s (CanvasEvent.loadImage img)).1.resizing = s.resizing
      ∧ (stepE s (CanvasEvent.loadImage img)).1.resize_handle = s.resize_handle
      ∧ (stepE s (CanvasEvent.loadImage img)).2 = 0 :=
  ⟨rfl, rfl, rfl, rfl, rfl, rfl, rfl, rfl, rfl, rfl, rfl, rfl, rfl, rfl, rfl⟩

end AnnotTool
